import Mathlib

/-!
Verification of the tunnel_maker program (src/tunnel_maker.py).

The program is embedded shallowly: pure Python functions become Lean
functions; the side-effecting parts (HTTP requests, SSH commands, file
uploads, logging, process exit) are modelled as values of an `Event`
trace type together with explicit outcome values (`Except` for raised
exceptions and `sys.exit`).  Library calls that are external to the
repository (the paramiko RSA key generator, the HTTP transport) are
modelled as parameters of the embedding.
-/

namespace TunnelMaker

/-- Record for one element of the `results` array returned by the
instances endpoint.  The Python code reads the keys `publicIp`,
`username`, `sshPort` and (optionally, via `.get`) `role`. -/
structure Instance where
  publicIp : String
  username : String
  sshPort : Nat
  role : Option String
deriving DecidableEq, Repr

/-- One page of a paginated API response: a `results` array and an
optional `next` URL (null on the last page). -/
structure Page where
  results : List Instance
  next : Option String
deriving DecidableEq, Repr

/-- Abstraction of a paramiko RSAKey object.  `bits` is the modulus
size requested from the generator, `keyName` models `get_name()`
(the algorithm name, in reality "ssh-rsa"), `base64` models
`get_base64()`, and `privateFileContent` stands for the PEM
serialization that `write_private_key_file` writes to disk. -/
structure RSAKey where
  bits : Nat
  keyName : String
  base64 : String
  privateFileContent : String
deriving DecidableEq, Repr

/-- Abstraction of a fabric Connection object: the constructor
arguments used by `connect_to_instance`. -/
structure Connection where
  host : String
  user : String
  port : Nat
  connect_timeout : Nat
  connect_kwargs : Option String
deriving DecidableEq, Repr

/-- A pathlib path `dir.joinpath(base)`: directory part plus final
component (`Path.name` in Python is the `base` field). -/
structure RPath where
  dir : String
  base : String
deriving DecidableEq, Repr

/-- The two remote endpoints of a run: the connection for job 1 and
the connection for job 2. -/
inductive Endpoint
  | job1
  | job2
deriving DecidableEq, Repr

/-- Observable effects of a run.  `apiGet` is an HTTP GET request,
`logError` a logger.error call, `connect` the construction of an SSH
connection, `runEcho` a plain remote `echo` command, `put` an SFTP
upload of a file (filename and content) into the remote home
directory, `echoAppend` a remote command `echo "content" >> file`,
`chmod` a remote `chmod mode file`, and `close` closes a connection. -/
inductive Event
  | apiGet (url : String)
  | logError (msg : String)
  | connect (host : String) (user : String) (port : Nat)
  | runEcho (e : Endpoint) (content : String)
  | put (e : Endpoint) (fname : String) (content : String)
  | echoAppend (e : Endpoint) (content : String) (file : String)
  | chmod (e : Endpoint) (mode : String) (file : String)
  | close (e : Endpoint)
deriving DecidableEq, Repr

/-- Embedding of `log_and_raise_for_status`: a response is either a
successful page or a failure carrying the response body text; on
failure the body is logged and the error re-raised. -/
def log_and_raise_for_status (response : Except String Page) :
    List Event × Except String Page :=
  match response with
  | .error body => ([Event.logError body], .error body)
  | .ok p => ([], .ok p)

/-- Embedding of the while-loop of `Api.get_all_result_pages`: while
the current response has a non-null `next` link, GET that link,
log-and-raise on failure, and extend the accumulated results.  The
`fuel` argument bounds the number of loop iterations (the Python loop
has no such bound; `none` in the result signals that the bound was
hit, which cannot happen for a well-formed finite page chain). -/
def get_all_result_pages_loop (fetch : String → Except String Page) :
    Nat → Page → List Instance → List Event × Option (Except String (List Instance))
  | 0, response, results =>
    (match response.next with
     | none => ([], some (.ok results))
     | some _ => ([], none))
  | fuel+1, response, results =>
    match response.next with
    | none => ([], some (.ok results))
    | some url =>
      match log_and_raise_for_status (fetch url) with
      | (evs, .error body) => (Event.apiGet url :: evs, some (.error body))
      | (evs, .ok page) =>
        let r := get_all_result_pages_loop fetch fuel page (results ++ page.results)
        (Event.apiGet url :: evs ++ r.1, r.2)

/-- Embedding of `Api.get_all_result_pages`: GET the given URL,
log-and-raise on failure, seed the result list with the first page,
then run the pagination loop. -/
def get_all_result_pages (fetch : String → Except String Page) (fuel : Nat)
    (url : String) : List Event × Option (Except String (List Instance)) :=
  match log_and_raise_for_status (fetch url) with
  | (evs, .error body) => (Event.apiGet url :: evs, some (.error body))
  | (evs, .ok page) =>
    let r := get_all_result_pages_loop fetch fuel page page.results
    (Event.apiGet url :: evs ++ r.1, r.2)

/-- URL built by `Api.get_instances` for a job. -/
def instances_url (base_url job_id : String) : String :=
  base_url ++ "/api/v2/jobs/" ++ job_id ++ "/instances/"

/-- Embedding of `Api.get_instances`. -/
def get_instances (fetch : String → Except String Page) (fuel : Nat)
    (base_url job_id : String) :
    List Event × Option (Except String (List Instance)) :=
  get_all_result_pages fetch fuel (instances_url base_url job_id)

/-- Authorization header value built in `Api.__init__`. -/
def api_authorization (api_key : String) : String :=
  "Token " ++ api_key

/-- Outcome of `Api.get_head_node`: either the process exits (after a
logger.error call with the given message), or a value is returned
(an instance, or None). -/
inductive HeadNodeOutcome
  | exited (logMsg : String) (code : Nat)
  | returned (inst : Option Instance)
deriving DecidableEq, Repr

/-- Embedding of `Api.get_head_node`, applied to the instance list
returned by `get_instances`.  Zero instances: log an error naming the
job and exit with code 1.  Exactly one instance: return it (the code
returns `instances[0]`; with one element this is `head?`).  Several
instances: return the first whose `role` equals MPI_MASTER, or None
when the loop falls through. -/
def get_head_node (job_id : String) (instances : List Instance) :
    HeadNodeOutcome :=
  if instances.length = 0 then
    .exited ("No instances found for JobID \x27" ++ job_id ++
      "\x27. Is the cluster running?") 1
  else if instances.length = 1 then
    .returned instances.head?
  else
    .returned (instances.find? fun i => i.role == some "MPI_MASTER")

/-- Parsed command line arguments used by the embedded functions
(`parse_command_line_arguments`).  Defaults mirror argparse:
`local_port_forwarding` defaults to "47827:localhost:47827",
`api_profile` to "default", `api_base_url` to the platform URL. -/
structure CLArgs where
  job1 : String
  job2 : String
  local_port_forwarding : String
  rescale_ssh_private_key : Option String
  api_config_file : String
  api_profile : String
  api_base_url : String
deriving DecidableEq, Repr

/-- Priority list of environment variables checked by
`get_api_key_from_envvar`. -/
def envvar_priority : List String :=
  ["RESCALE_API_US_PROD", "RESCALE_API_KEY"]

/-- The loop body of `get_api_key_from_envvar`: return the value of
the first variable in the list that is set (os.environ.get returns a
value that is not None), else none. -/
def first_set_envvar (environ : String → Option String) :
    List String → Option String
  | [] => none
  | v :: rest =>
    match environ v with
    | some k => some k
    | none => first_set_envvar environ rest

/-- Embedding of `get_api_key_from_envvar`: the api key from the
first set environment variable (or none), paired with the base URL
from the command line arguments. -/
def get_api_key_from_envvar (environ : String → Option String)
    (a : CLArgs) : Option String × String :=
  (first_set_envvar environ envvar_priority, a.api_base_url)

/-- An INI-style configuration file: sections by name, each a list of
key/value pairs.  `none` models a file that does not exist. -/
abbrev ConfigSections := List (String × List (String × String))

/-- Outcome of credential resolution: a key/URL pair, or a raised
FileNotFoundError with its message, or a logged error followed by
sys.exit(code), or an uncaught KeyError (profile section missing). -/
inductive ProfileOutcome
  | ok (api_key : String) (api_base_url : String)
  | fileNotFound (msg : String)
  | exited (logMsg : String) (code : Nat)
  | keyError (missing : String)
deriving DecidableEq, Repr

/-- Embedding of `get_api_key_from_config_file`.  Missing file:
FileNotFoundError.  Missing profile section: uncaught KeyError from
the section lookup.  Section present but either required key absent:
logger.error naming both required keys, then sys.exit(1). -/
def get_api_key_from_config_file (config_file : Option ConfigSections)
    (api_config_file : String) (api_profile : String) : ProfileOutcome :=
  match config_file with
  | none => .fileNotFound ("File " ++ api_config_file ++ " not found!")
  | some sections =>
    match sections.lookup api_profile with
    | none => .keyError api_profile
    | some api_profile_section =>
      match api_profile_section.lookup "apikey", api_profile_section.lookup "apibaseurl" with
      | some api_key, some api_base_url => .ok api_key api_base_url
      | _, _ =>
        .exited ("Keys \x27apikey\x27 and \x27apibaseurl\x27 must be defined for profile \x27"
          ++ api_profile ++ "\x27 in file " ++ api_config_file ++ ".") 1

/-- Embedding of `get_api_profile`: use the environment variables if
one is set, otherwise fall back to the configuration file. -/
def get_api_profile (environ : String → Option String) (a : CLArgs)
    (config_file : Option ConfigSections) : ProfileOutcome :=
  match get_api_key_from_envvar environ a with
  | (some api_key, api_base_url) => .ok api_key api_base_url
  | (none, _) => get_api_key_from_config_file config_file a.api_config_file a.api_profile

/-- The public key line written by `create_temp_ssh_keypair` and
appended to authorized_keys by `setup_tunnel`: the interpolation of
`get_name()` and `get_base64()` separated by one space. -/
def public_key_line (key : RSAKey) : String :=
  key.keyName ++ " " ++ key.base64

/-- Return value (plus recorded local file writes) of
`create_temp_ssh_keypair`. -/
structure KeypairResult where
  writes : List (RPath × String)
  key : RSAKey
  private_key_path : RPath
  public_key_path : RPath
deriving DecidableEq, Repr

/-- Embedding of `create_temp_ssh_keypair`: generate an RSA key of
the given size (`generate` models paramiko RSAKey.generate), write
the private key file and the one-line public key file under tempdir,
and return the key and both paths. -/
def create_temp_ssh_keypair (tempdir : String) (generate : Nat → RSAKey)
    (size : Nat) : KeypairResult :=
  let key := generate size
  let private_key_path : RPath := ⟨tempdir, "tunnel_maker_private_key.pem"⟩
  let public_key_path : RPath := ⟨tempdir, "tunnel_maker_public_key.pub"⟩
  { writes := [(private_key_path, key.privateFileContent),
               (public_key_path, public_key_line key)],
    key := key,
    private_key_path := private_key_path,
    public_key_path := public_key_path }

/-- Embedding of `connect_to_instance`: build a Connection from the
publicIp, username and sshPort of the instance record. -/
def connect_to_instance (inst : Instance)
    (private_key_filename : Option String) (timeout : Nat) : Connection :=
  { host := inst.publicIp,
    user := inst.username,
    port := inst.sshPort,
    connect_timeout := timeout,
    connect_kwargs := private_key_filename }

/-- Embedding of `test_ssh_connection`: run a trivial remote echo
command; when the result is not ok, log the target host and exit
with code 1. -/
def test_ssh_connection (e : Endpoint) (c : Connection)
    (result_ok : Bool) : List Event × Except Nat Unit :=
  if result_ok then
    ([Event.runEcho e "SSH connection successful"], .ok ())
  else
    ([Event.runEcho e "SSH connection successful",
      Event.logError ("Could not connect to " ++ c.host ++ ".")], .error 1)

/-- Script filename used by `setup_tunnel`. -/
def tunnel_script_name : String := "create_ssh_tunnel.sh"

/-- Content of the tunnel script rendered by `setup_tunnel`: a
shebang line and an ssh invocation with the port, identity file,
user at host, the -L local port forwarding spec, and -N -v. -/
def tunnel_script_content (con_job2 : Connection)
    (private_key_base local_port_forwarding : String) : String :=
  "#!/bin/bash\n" ++
  "ssh -p " ++ toString con_job2.port ++ " -i ~/" ++ private_key_base ++ " " ++
  con_job2.user ++ "@" ++ con_job2.host ++ " -L " ++ local_port_forwarding ++ " -N -v"

/-- Embedding of `setup_tunnel` as the list of remote effects it
performs, in order: create the temporary keypair (size 2048, the
default), upload the private key file to job 1, append the public
key line to authorized_keys on job 2, append the rendered script to
the script file on job 1, and chmod it to 775.  The echoAppend
events model the remote commands echo "content" appended to file. -/
def setup_tunnel (tempdir : String) (generate : Nat → RSAKey)
    (con_job1 con_job2 : Connection) (local_port_forwarding : String) :
    List Event :=
  let r := create_temp_ssh_keypair tempdir generate 2048
  let key := r.key
  let authorized_keys_line := public_key_line key
  let script_content :=
    tunnel_script_content con_job2 r.private_key_path.base local_port_forwarding
  [Event.put .job1 r.private_key_path.base key.privateFileContent,
   Event.echoAppend .job2 authorized_keys_line "~/.ssh/authorized_keys",
   Event.echoAppend .job1 script_content ("~/" ++ tunnel_script_name),
   Event.chmod .job1 "775" ("~/" ++ tunnel_script_name)]

/-- The external world a run interacts with: the process environment,
the configuration file, the HTTP server behaviour (each URL yields a
page or a non-2xx failure body), the outcomes of the two remote test
commands, the key generator and the temporary directory name.  `fuel`
bounds the pagination loop of the embedding. -/
structure World where
  environ : String → Option String
  config_file : Option ConfigSections
  fetch : String → Except String Page
  fuel : Nat
  ssh_ok1 : Bool
  ssh_ok2 : Bool
  generate : Nat → RSAKey
  tempdir : String

/-- Reason a run terminates early: sys.exit(code), an uncaught
FileNotFoundError or KeyError from credential resolution, an
HTTPError raised for a non-2xx response, the TypeError raised when
`connect_to_instance` receives None (multiple instances, none with
role MPI_MASTER), or exhaustion of the pagination fuel of the
embedding. -/
inductive RunError
  | exited (code : Nat)
  | fileNotFound (msg : String)
  | keyError (missing : String)
  | httpError (body : String)
  | typeError
  | outOfFuel
deriving DecidableEq, Repr

/-- The call `api.get_head_node(job_id)` as performed by main:
retrieve the instances, then select the head node; the exit path
logs its error message. -/
def run_get_head_node (w : World) (base_url job_id : String) :
    List Event × Except RunError (Option Instance) :=
  match get_instances w.fetch w.fuel base_url job_id with
  | (t, none) => (t, .error .outOfFuel)
  | (t, some (.error body)) => (t, .error (.httpError body))
  | (t, some (.ok instances)) =>
    match get_head_node job_id instances with
    | .exited msg code => (t ++ [Event.logError msg], .error (.exited code))
    | .returned oi => (t, .ok oi)

/-- Embedding of `main`: resolve credentials, resolve both head
nodes, build both connections, test both connections, run
`setup_tunnel`, close both connections.  The first component is the
trace of observable events, the second the outcome. -/
def main_run (w : World) (a : CLArgs) : List Event × Except RunError Unit :=
  match get_api_profile w.environ a w.config_file with
  | .fileNotFound m => ([], .error (.fileNotFound m))
  | .keyError k => ([], .error (.keyError k))
  | .exited m code => ([Event.logError m], .error (.exited code))
  | .ok _api_key base_url =>
    match run_get_head_node w base_url a.job1 with
    | (t1, .error e) => (t1, .error e)
    | (t1, .ok o1) =>
      match run_get_head_node w base_url a.job2 with
      | (t2, .error e) => (t1 ++ t2, .error e)
      | (t2, .ok o2) =>
        match o1, o2 with
        | some i1, some i2 =>
          let c1 := connect_to_instance i1 a.rescale_ssh_private_key 20
          let c2 := connect_to_instance i2 a.rescale_ssh_private_key 20
          let base := t1 ++ t2 ++
            [Event.connect c1.host c1.user c1.port,
             Event.connect c2.host c2.user c2.port]
          match test_ssh_connection .job1 c1 w.ssh_ok1 with
          | (e1, .error code) => (base ++ e1, .error (.exited code))
          | (e1, .ok _) =>
            match test_ssh_connection .job2 c2 w.ssh_ok2 with
            | (e2, .error code) => (base ++ e1 ++ e2, .error (.exited code))
            | (e2, .ok _) =>
              (base ++ e1 ++ e2 ++
                 setup_tunnel w.tempdir w.generate c1 c2 a.local_port_forwarding ++
                 [Event.close .job1, Event.close .job2], .ok ())
        | _, _ => (t1 ++ t2, .error .typeError)

/-- State of one remote host: the text content of each file (absent
files read as the empty string), the permission mode set by chmod,
and the list of files received via put (filename and content),
which land in the home directory. -/
structure HostState where
  files : String → String
  modes : String → Option String
  uploaded : List (String × String)

/-- A host with no files, no modes, no uploads. -/
def emptyHost : HostState :=
  { files := fun _ => "", modes := fun _ => none, uploaded := [] }

/-- The pair of remote hosts reachable in a run. -/
structure Hosts where
  job1 : HostState
  job2 : HostState

/-- Apply a host-state update to the host selected by an endpoint. -/
def updateHost (h : Hosts) (e : Endpoint) (f : HostState → HostState) : Hosts :=
  match e with
  | .job1 => { h with job1 := f h.job1 }
  | .job2 => { h with job2 := f h.job2 }

/-- Semantics of one event on the pair of hosts.  A put records the
uploaded file; echo "content" appended to a file appends the content
plus a final newline to that file; chmod records the mode; the other
events do not change host state. -/
def applyEvent (h : Hosts) : Event → Hosts
  | .put e fname content =>
    updateHost h e fun st => { st with uploaded := st.uploaded ++ [(fname, content)] }
  | .echoAppend e content file =>
    updateHost h e fun st =>
      { st with files := fun f => if f = file then st.files f ++ content ++ "\n" else st.files f }
  | .chmod e mode file =>
    updateHost h e fun st =>
      { st with modes := fun f => if f = file then some mode else st.modes f }
  | _ => h

/-- Semantics of a trace: apply the events in order. -/
def applyEvents (h : Hosts) (evs : List Event) : Hosts :=
  evs.foldl applyEvent h

/-- Number of newline characters in a string. -/
def newlineCount (s : String) : Nat :=
  s.data.count (Char.ofNat 10)

/-- Endpoint equality as a boolean, by cases. -/
def sameEndpoint : Endpoint → Endpoint → Bool
  | .job1, .job1 => true
  | .job2, .job2 => true
  | _, _ => false

/-- Events that transmit data to a given endpoint (remote commands,
uploads, connection close). -/
def sentTo (e : Endpoint) : Event → Bool
  | .runEcho e2 _ => sameEndpoint e2 e
  | .put e2 _ _ => sameEndpoint e2 e
  | .echoAppend e2 _ _ => sameEndpoint e2 e
  | .chmod e2 _ _ => sameEndpoint e2 e
  | .close e2 => sameEndpoint e2 e
  | _ => false

/-- The put events of a trace, as endpoint, filename, content triples. -/
def putEvents : List Event → List (Endpoint × String × String)
  | [] => []
  | .put e fname content :: rest => (e, fname, content) :: putEvents rest
  | _ :: rest => putEvents rest

/-- Recognizer for the provisioning effects of `setup_tunnel`
(uploads, file appends, chmod). -/
def isTunnelEvent : Event → Bool
  | .put _ _ _ => true
  | .echoAppend _ _ _ => true
  | .chmod _ _ _ => true
  | _ => false

/-- Recognizer for SSH connection construction events. -/
def isConnectEvent : Event → Bool
  | .connect _ _ _ => true
  | _ => false

/-- The contents appended to a given file of a given endpoint by the
echoAppend commands of a trace, in order. -/
def appendsTo (e : Endpoint) (file : String) : List Event → List String
  | [] => []
  | .echoAppend e2 content f :: rest =>
    if e2 = e ∧ f = file then content :: appendsTo e file rest
    else appendsTo e file rest
  | _ :: rest => appendsTo e file rest

/-- Events emitted by the API client: GET requests and error logs. -/
def isApiEvent : Event → Bool
  | .apiGet _ => true
  | .logError _ => true
  | _ => false

/-- A finite pagination chain under a given server: each element is
the URL of a page together with its results array; every page except
the last carries the next URL of the chain, the last page has a null
next link. -/
inductive Chain (fetch : String → Except String Page) :
    List (String × List Instance) → Prop
  | last (u : String) (rs : List Instance)
      (h : fetch u = .ok ⟨rs, none⟩) : Chain fetch [(u, rs)]
  | step (u : String) (rs : List Instance) (u2 : String) (rs2 : List Instance)
      (rest : List (String × List Instance))
      (h : fetch u = .ok ⟨rs, some u2⟩)
      (htail : Chain fetch ((u2, rs2) :: rest)) :
      Chain fetch ((u, rs) :: (u2, rs2) :: rest)

/-- Reading of the resolution order claimed in the specification:
the value of the first environment variable in the priority list
whose value is non-empty.  This definition follows the wording of
the specification, to be compared with `first_set_envvar`, which is
translated from the source. -/
def first_nonempty_envvar (environ : String → Option String) :
    List String → Option String
  | [] => none
  | v :: rest =>
    match environ v with
    | some k => if k = "" then first_nonempty_envvar environ rest else some k
    | none => first_nonempty_envvar environ rest

/-- Sample instance with no role. -/
def inst_a : Instance := ⟨"10.0.0.1", "usera", 22, none⟩

/-- Sample instance with the MPI_MASTER role. -/
def inst_m : Instance := ⟨"10.0.0.2", "userm", 2222, some "MPI_MASTER"⟩

/-- Sample instance with a different role. -/
def inst_c : Instance := ⟨"10.0.0.3", "userc", 22, some "SLAVE"⟩

/-- Sample key generator for witnesses. -/
def gen0 : Nat → RSAKey :=
  fun b => ⟨b, "ssh-rsa", "AAAAB3Nza", "PEMCONTENT"⟩

/-- Sample command line arguments for witnesses. -/
def args0 : CLArgs :=
  { job1 := "jA",
    job2 := "jB",
    local_port_forwarding := "47827:localhost:47827",
    rescale_ssh_private_key := none,
    api_config_file := "/home/u/.config/rescale/apiconfig",
    api_profile := "default",
    api_base_url := "https://platform.rescale.com" }

/-- Sample world whose server answers every URL with a single empty
page, with the API key in the environment. -/
def w_empty : World :=
  { environ := fun _ => some "KEY0",
    config_file := none,
    fetch := fun _ => .ok ⟨[], none⟩,
    fuel := 1,
    ssh_ok1 := true,
    ssh_ok2 := true,
    generate := gen0,
    tempdir := "/tmp/t0" }

/-- Sample server serving a two-page chain: pageA with one result
and a next link to pageB, pageB with one result and a null next
link; every other URL fails with body "not found". -/
def fetch2 : String → Except String Page :=
  fun u =>
    if u = "pageA" then .ok ⟨[inst_a], some "pageB"⟩
    else if u = "pageB" then .ok ⟨[inst_m], none⟩
    else .error "not found"

/-- Sample connection for job 1 in witnesses. -/
def con1 : Connection := ⟨"1.2.3.4", "user1", 22, 20, none⟩

/-- Sample connection for job 2 in witnesses. -/
def con2 : Connection := ⟨"5.6.7.8", "user2", 2222, 20, none⟩

/-- Pair of initially empty hosts for witnesses. -/
def hosts0 : Hosts := ⟨emptyHost, emptyHost⟩

/-- Sample environment in which the first priority variable is set
to the empty string and the second to a real key. -/
def env5 : String → Option String :=
  fun v =>
    if v = "RESCALE_API_US_PROD" then some ""
    else if v = "RESCALE_API_KEY" then some "realkey"
    else none

/-- Sample environment with both variables set to distinct values. -/
def envA : String → Option String :=
  fun v =>
    if v = "RESCALE_API_US_PROD" then some "kUS"
    else if v = "RESCALE_API_KEY" then some "kGen"
    else none

/-- Sample environment with only the second priority variable set. -/
def envB : String → Option String :=
  fun v => if v = "RESCALE_API_KEY" then some "kGen" else none

/-- Sample environment with no variable set. -/
def envC : String → Option String := fun _ => none

/-- Sample well-formed configuration file. -/
def cfg0 : ConfigSections :=
  [("default", [("apikey", "ck"), ("apibaseurl", "cu")])]

/-- Sample configuration file whose default profile misses the
apibaseurl key. -/
def cfgBad : ConfigSections :=
  [("default", [("apikey", "ck")])]

/-- Sample world forcing the configuration-file path with a
section that misses a required key. -/
def w_cfg : World :=
  { environ := envC,
    config_file := some cfgBad,
    fetch := fun _ => .ok ⟨[], none⟩,
    fuel := 1,
    ssh_ok1 := true,
    ssh_ok2 := true,
    generate := gen0,
    tempdir := "/tmp/t0" }

/-- Sample world whose server reports one instance for every job and
whose first SSH connectivity test fails. -/
def w_sshfail : World :=
  { environ := fun _ => some "KEY0",
    config_file := none,
    fetch := fun _ => .ok ⟨[inst_a], none⟩,
    fuel := 1,
    ssh_ok1 := false,
    ssh_ok2 := true,
    generate := gen0,
    tempdir := "/tmp/t0" }

/-- Sample world whose server reports one instance for every job and
whose second SSH connectivity test fails. -/
def w_sshfail2 : World :=
  { environ := fun _ => some "KEY0",
    config_file := none,
    fetch := fun _ => .ok ⟨[inst_a], none⟩,
    fuel := 1,
    ssh_ok1 := true,
    ssh_ok2 := false,
    generate := gen0,
    tempdir := "/tmp/t0" }

/-! ## Lemmas and theorems -/

/-- Helper: the first list element satisfying the MPI_MASTER role
test is found by find?, whatever comes after it. -/
theorem find?_first_role (pre post : List Instance) (i : Instance)
    (hpre : ∀ j ∈ pre, ¬ j.role = some "MPI_MASTER")
    (hi : i.role = some "MPI_MASTER") :
    (pre ++ i :: post).find? (fun j => j.role == some "MPI_MASTER") = some i := by
  induction pre with
  | nil =>
    rw [List.nil_append]
    exact List.find?_cons_of_pos _ (beq_iff_eq.mpr hi)
  | cons a t ih =>
    have ha : ¬ ((a.role == some "MPI_MASTER") = true) := by
      simp only [beq_iff_eq]
      exact hpre a (List.mem_cons_self a t)
    have hstep :=
      List.find?_cons_of_neg (p := fun j => j.role == some "MPI_MASTER")
        (a := a) (t ++ i :: post) ha
    rw [List.cons_append, hstep]
    exact ih fun j hj => hpre j (List.mem_cons_of_mem a hj)

/-- Helper: every event emitted by the pagination loop is an API
event (a GET request or an error log). -/
theorem apiEvent_loop (fetch : String → Except String Page) :
    ∀ fuel page acc ev, ev ∈ (get_all_result_pages_loop fetch fuel page acc).1 →
      isApiEvent ev = true := by
  intro fuel
  induction fuel with
  | zero =>
    intro page acc ev h
    rcases page with ⟨rs, next⟩
    cases next <;> simp [get_all_result_pages_loop] at h
  | succ f ih =>
    intro page acc ev h
    rcases page with ⟨rs, next⟩
    cases next with
    | none => simp [get_all_result_pages_loop] at h
    | some url =>
      cases hf : fetch url with
      | error body =>
        simp [get_all_result_pages_loop, log_and_raise_for_status, hf] at h
        rcases h with h | h <;> simp [h, isApiEvent]
      | ok page2 =>
        simp [get_all_result_pages_loop, log_and_raise_for_status, hf] at h
        rcases h with h | h
        · simp [h, isApiEvent]
        · exact ih page2 (acc ++ page2.results) ev h

/-- Helper: every event emitted by `get_all_result_pages` is an API
event. -/
theorem apiEvent_pages (fetch : String → Except String Page) (fuel : Nat)
    (url : String) :
    ∀ ev ∈ (get_all_result_pages fetch fuel url).1, isApiEvent ev = true := by
  intro ev h
  unfold get_all_result_pages at h
  cases hf : fetch url with
  | error body =>
    simp [log_and_raise_for_status, hf] at h
    rcases h with h | h <;> simp [h, isApiEvent]
  | ok page =>
    simp [log_and_raise_for_status, hf] at h
    rcases h with h | h
    · simp [h, isApiEvent]
    · exact apiEvent_loop fetch fuel page page.results ev h

/-- Helper: every event emitted by the head-node resolution step of
main is an API event. -/
theorem apiEvent_run_get_head_node (w : World) (burl j : String) :
    ∀ ev ∈ (run_get_head_node w burl j).1, isApiEvent ev = true := by
  intro ev h
  unfold run_get_head_node at h
  split at h
  case _ t heq =>
    exact apiEvent_pages w.fetch w.fuel (instances_url burl j) ev
      (by rw [show get_all_result_pages w.fetch w.fuel (instances_url burl j) = (t, none) from heq]; exact h)
  case _ t body heq =>
    exact apiEvent_pages w.fetch w.fuel (instances_url burl j) ev
      (by rw [show get_all_result_pages w.fetch w.fuel (instances_url burl j) = (t, some (.error body)) from heq]; exact h)
  case _ t instances heq =>
    have ht : ∀ e2 ∈ t, isApiEvent e2 = true := by
      intro e2 h2
      exact apiEvent_pages w.fetch w.fuel (instances_url burl j) e2
        (by rw [show get_all_result_pages w.fetch w.fuel (instances_url burl j) = (t, some (.ok instances)) from heq]; exact h2)
    split at h
    case _ msg code _ =>
      simp at h
      rcases h with h | h
      · exact ht ev h
      · simp [h, isApiEvent]
    case _ oi _ =>
      exact ht ev h

/-- Helper: an API event is neither a connection construction nor a
provisioning effect. -/
theorem apiEvent_benign {ev : Event} (h : isApiEvent ev = true) :
    isConnectEvent ev = false ∧ isTunnelEvent ev = false := by
  cases ev <;> simp_all [isApiEvent, isConnectEvent, isTunnelEvent]

/-- Claim C1: for every job ID, get_head_node first retrieves the
instances of the job; an empty list logs an error naming the job and
exits with a non-zero code without any SSH connection being
attempted; a single instance is returned as is; with several
instances the first one in list order whose role is MPI_MASTER is
returned; and when none has that role, None is returned. -/
theorem claim_C1 :
    (∀ job_id : String, get_head_node job_id [] =
      .exited ("No instances found for JobID \x27" ++ job_id ++
        "\x27. Is the cluster running?") 1)
  ∧ (∀ (job_id : String) (i : Instance),
      get_head_node job_id [i] = .returned (some i))
  ∧ (∀ (job_id : String) (pre : List Instance) (i : Instance) (post : List Instance),
      2 ≤ (pre ++ i :: post).length →
      (∀ j ∈ pre, ¬ j.role = some "MPI_MASTER") →
      i.role = some "MPI_MASTER" →
      get_head_node job_id (pre ++ i :: post) = .returned (some i))
  ∧ (∀ (job_id : String) (l : List Instance),
      2 ≤ l.length →
      (∀ j ∈ l, ¬ j.role = some "MPI_MASTER") →
      get_head_node job_id l = .returned none)
  ∧ (∀ (w : World) (a : CLArgs) (k burl : String) (t : List Event),
      get_api_profile w.environ a w.config_file = .ok k burl →
      get_instances w.fetch w.fuel burl a.job1 = (t, some (.ok [])) →
      main_run w a = (t ++ [Event.logError ("No instances found for JobID \x27" ++
          a.job1 ++ "\x27. Is the cluster running?")], .error (.exited 1))
        ∧ ∀ ev ∈ (main_run w a).1, isConnectEvent ev = false)
  ∧ (∀ (w : World) (a : CLArgs) (k burl : String) (t1 : List Event)
      (o1 : Option Instance) (t2 : List Event),
      get_api_profile w.environ a w.config_file = .ok k burl →
      run_get_head_node w burl a.job1 = (t1, .ok o1) →
      get_instances w.fetch w.fuel burl a.job2 = (t2, some (.ok [])) →
      main_run w a = (t1 ++ (t2 ++ [Event.logError ("No instances found for JobID \x27" ++
          a.job2 ++ "\x27. Is the cluster running?")]), .error (.exited 1))
        ∧ ∀ ev ∈ (main_run w a).1, isConnectEvent ev = false) := by
  refine ⟨?_, ?_, ?_, ?_, ?_, ?_⟩
  · intro job_id
    rfl
  · intro job_id i
    rfl
  · intro job_id pre i post hlen hpre hi
    have h0 : ¬ ((pre ++ i :: post).length = 0) := by omega
    have h1 : ¬ ((pre ++ i :: post).length = 1) := by omega
    unfold get_head_node
    rw [if_neg h0, if_neg h1, find?_first_role pre post i hpre hi]
  · intro job_id l hlen hall
    have h0 : ¬ (l.length = 0) := by omega
    have h1 : ¬ (l.length = 1) := by omega
    unfold get_head_node
    rw [if_neg h0, if_neg h1]
    have hn : l.find? (fun j => j.role == some "MPI_MASTER") = none := by
      rw [List.find?_eq_none]
      intro x hx
      simp only [beq_iff_eq]
      exact hall x hx
    rw [hn]
  · intro w a k burl t hprof hinst
    have hr : run_get_head_node w burl a.job1 =
        (t ++ [Event.logError ("No instances found for JobID \x27" ++
          a.job1 ++ "\x27. Is the cluster running?")], .error (.exited 1)) := by
      unfold run_get_head_node
      rw [hinst]
      rfl
    have hmain : main_run w a =
        (t ++ [Event.logError ("No instances found for JobID \x27" ++
          a.job1 ++ "\x27. Is the cluster running?")], .error (.exited 1)) := by
      simp only [main_run, hprof, hr]
    refine ⟨hmain, ?_⟩
    intro ev hmem
    rw [hmain] at hmem
    simp at hmem
    rcases hmem with hmem | hmem
    · have ht : isApiEvent ev = true :=
        apiEvent_pages w.fetch w.fuel (instances_url burl a.job1) ev
          (by rw [show get_all_result_pages w.fetch w.fuel (instances_url burl a.job1)
                    = (t, some (.ok [])) from hinst]; exact hmem)
      exact (apiEvent_benign ht).1
    · simp [hmem, isConnectEvent]
  · intro w a k burl t1 o1 t2 hprof h1 hinst2
    have hr2 : run_get_head_node w burl a.job2 =
        (t2 ++ [Event.logError ("No instances found for JobID \x27" ++
          a.job2 ++ "\x27. Is the cluster running?")], .error (.exited 1)) := by
      unfold run_get_head_node
      rw [hinst2]
      rfl
    have hmain : main_run w a =
        (t1 ++ (t2 ++ [Event.logError ("No instances found for JobID \x27" ++
          a.job2 ++ "\x27. Is the cluster running?")]), .error (.exited 1)) := by
      simp only [main_run, hprof, h1, hr2]
    refine ⟨hmain, ?_⟩
    intro ev hmem
    rw [hmain] at hmem
    simp at hmem
    rcases hmem with hmem | hmem | hmem
    · have ht : isApiEvent ev = true := by
        apply apiEvent_run_get_head_node w burl a.job1
        rw [h1]
        exact hmem
      exact (apiEvent_benign ht).1
    · have ht : isApiEvent ev = true :=
        apiEvent_pages w.fetch w.fuel (instances_url burl a.job2) ev
          (by rw [show get_all_result_pages w.fetch w.fuel (instances_url burl a.job2)
                    = (t2, some (.ok [])) from hinst2]; exact hmem)
      exact (apiEvent_benign ht).1
    · simp [hmem, isConnectEvent]

/-- Witness for claim C1 at concrete inputs: an empty instance list,
a singleton, a three-element list whose second element is the MPI
master, a two-element list without a master, and a full run against
a server that reports no instances. -/
theorem claim_C1_witness :
    get_head_node "jA" [] =
      .exited "No instances found for JobID \x27jA\x27. Is the cluster running?" 1
  ∧ get_head_node "jA" [inst_a] = .returned (some inst_a)
  ∧ get_head_node "jA" [inst_a, inst_m, inst_c] = .returned (some inst_m)
  ∧ get_head_node "jA" [inst_a, inst_c] = .returned none
  ∧ main_run w_empty args0 =
      ([Event.apiGet (instances_url "https://platform.rescale.com" "jA"),
        Event.logError "No instances found for JobID \x27jA\x27. Is the cluster running?"],
       .error (.exited 1)) :=
  ⟨claim_C1.1 "jA",
   claim_C1.2.1 "jA" inst_a,
   claim_C1.2.2.1 "jA" [inst_a] inst_m [inst_c] (by decide) (by decide) (by decide),
   claim_C1.2.2.2.1 "jA" [inst_a, inst_c] (by decide) (by decide),
   (claim_C1.2.2.2.2.1 w_empty args0 "KEY0" "https://platform.rescale.com"
     [Event.apiGet (instances_url "https://platform.rescale.com" "jA")]
     (by rfl) (by rfl)).1⟩

/-- Helper: a page whose next link is null ends the pagination loop
immediately, for any remaining fuel. -/
theorem loop_none (fetch : String → Except String Page) (fuel : Nat)
    (rs acc : List Instance) :
    get_all_result_pages_loop fetch fuel ⟨rs, none⟩ acc = ([], some (.ok acc)) := by
  cases fuel <;> rfl

/-- Helper: entering the pagination loop at the head of a chain
requests exactly the URLs of the chain, in order, and appends the
results arrays of the chain to the accumulator, in order. -/
theorem loop_chain (fetch : String → Except String Page)
    (c : List (String × List Instance)) (hc : Chain fetch c) :
    ∀ (fuel : Nat) (acc prev : List Instance) (u : String)
      (rs : List Instance) (rest : List (String × List Instance)),
      c = (u, rs) :: rest → rest.length < fuel →
      get_all_result_pages_loop fetch fuel ⟨prev, some u⟩ acc
        = (c.map fun p => Event.apiGet p.1,
           some (.ok (acc ++ (c.map Prod.snd).flatten))) := by
  induction hc with
  | last u0 rs0 h =>
    intro fuel acc prev u rs rest hceq hfuel
    injection hceq with h1 h2
    cases h1
    subst h2
    obtain ⟨f, rfl⟩ : ∃ f, fuel = f + 1 := ⟨fuel - 1, by omega⟩
    simp [get_all_result_pages_loop, log_and_raise_for_status, h, loop_none]
  | step u0 rs0 u2 rs2 rest0 h htail ih =>
    intro fuel acc prev u rs rest hceq hfuel
    injection hceq with h1 h2
    cases h1
    subst h2
    obtain ⟨f, rfl⟩ : ∃ f, fuel = f + 1 := ⟨fuel - 1, by omega⟩
    have hih := ih f (acc ++ rs0) rs0 u2 rs2 rest0 rfl (by simp at hfuel; omega)
    simp [get_all_result_pages_loop, log_and_raise_for_status, h, hih,
      List.append_assoc]

/-- Claim C2: for every finite pagination chain in which only the
last page has a null next link, get_all_result_pages requests
exactly the pages of the chain in order and returns the
concatenation of their results arrays in page order; and any
non-successful response makes it log the response body and raise the
error (aborting with that body), whether on the first request or on
any later request of the loop. -/
theorem claim_C2 :
    (∀ (fetch : String → Except String Page) (u : String)
       (rs : List Instance) (rest : List (String × List Instance)) (fuel : Nat),
       Chain fetch ((u, rs) :: rest) → rest.length ≤ fuel →
       get_all_result_pages fetch fuel u
         = (((u, rs) :: rest).map fun p => Event.apiGet p.1,
            some (.ok ((((u, rs) :: rest).map Prod.snd).flatten))))
  ∧ (∀ (fetch : String → Except String Page) (fuel : Nat) (url body : String),
       fetch url = .error body →
       get_all_result_pages fetch fuel url
         = ([Event.apiGet url, Event.logError body], some (.error body)))
  ∧ (∀ (fetch : String → Except String Page) (fuel : Nat) (page : Page)
       (url : String) (acc : List Instance) (body : String),
       page.next = some url → fetch url = .error body →
       get_all_result_pages_loop fetch (fuel + 1) page acc
         = ([Event.apiGet url, Event.logError body], some (.error body))) := by
  refine ⟨?_, ?_, ?_⟩
  · intro fetch u rs rest fuel hc hfuel
    cases hc with
    | last u0 rs0 h =>
      simp [get_all_result_pages, log_and_raise_for_status, h, loop_none]
    | step u0 rs0 u2 rs2 rest0 h htail =>
      have hl := loop_chain fetch ((u2, rs2) :: rest0) htail fuel rs rs u2 rs2 rest0
        rfl (by simp at hfuel; omega)
      simp [get_all_result_pages, log_and_raise_for_status, h, hl]
  · intro fetch fuel url body herr
    simp [get_all_result_pages, log_and_raise_for_status, herr]
  · intro fetch fuel page url acc body hnext herr
    rcases page with ⟨rs, nx⟩
    simp only at hnext
    subst hnext
    simp [get_all_result_pages_loop, log_and_raise_for_status, herr]

/-- Witness for claim C2: a two-page chain is concatenated in page
order with exactly the two requests made, and a failing URL yields
the logged body and the raised error. -/
theorem claim_C2_witness :
    get_all_result_pages fetch2 1 "pageA"
      = ([Event.apiGet "pageA", Event.apiGet "pageB"], some (.ok [inst_a, inst_m]))
  ∧ get_all_result_pages fetch2 1 "nope"
      = ([Event.apiGet "nope", Event.logError "not found"], some (.error "not found")) :=
  ⟨claim_C2.1 fetch2 "pageA" [inst_a] [("pageB", [inst_m])] 1
     (Chain.step "pageA" [inst_a] "pageB" [inst_m] [] (by rfl)
       (Chain.last "pageB" [inst_m] (by rfl))) (by decide),
   claim_C2.2.1 fetch2 1 "nope" "not found" (by rfl)⟩

/-- Helper: the interpolated remote script path. -/
theorem script_path_eq : "~/" ++ tunnel_script_name = "~/create_ssh_tunnel.sh" := rfl

/-- Helper: appending to the empty string. -/
theorem empty_string_append (s : String) : "" ++ s = s := rfl

/-- Helper: newline count distributes over concatenation. -/
theorem newlineCount_append (s t : String) :
    newlineCount (s ++ t) = newlineCount s + newlineCount t := by
  simp [newlineCount, String.data_append]

/-- Helper: a string without the newline character has newline count
zero. -/
theorem newlineCount_eq_zero {s : String} (h : ¬ Char.ofNat 10 ∈ s.data) :
    newlineCount s = 0 :=
  List.count_eq_zero.mpr h

/-- Helper: the one-character newline string has newline count one. -/
theorem newlineCount_newline : newlineCount "\n" = 1 := by decide

/-- Helper: the one-character space string has newline count zero. -/
theorem newlineCount_space : newlineCount " " = 0 := by decide

/-- Claim C3: one run of setup_tunnel places exactly one private key
file named tunnel_maker_private_key.pem in the home directory on
job 1, appends exactly one new line matching the generated public
key to authorized_keys on job 2, and produces the script
create_ssh_tunnel.sh on job 1 with permission mode 775 whose content
is the ssh invocation referencing the port, user and host of job 2,
the uploaded key filename, the configured -L local port forwarding
spec, and the -N and -v flags. -/
theorem claim_C3 (tempdir : String) (generate : Nat → RSAKey)
    (con_job1 con_job2 : Connection) (lpf : String) (h0 : Hosts)
    (hscript : h0.job1.files "~/create_ssh_tunnel.sh" = "")
    (hname : ¬ Char.ofNat 10 ∈ (generate 2048).keyName.data)
    (hb64 : ¬ Char.ofNat 10 ∈ (generate 2048).base64.data) :
    (applyEvents h0 (setup_tunnel tempdir generate con_job1 con_job2 lpf)).job1.uploaded
      = h0.job1.uploaded ++
          [("tunnel_maker_private_key.pem", (generate 2048).privateFileContent)]
  ∧ (applyEvents h0 (setup_tunnel tempdir generate con_job1 con_job2 lpf)).job2.files
        "~/.ssh/authorized_keys"
      = h0.job2.files "~/.ssh/authorized_keys" ++ public_key_line (generate 2048) ++ "\n"
  ∧ newlineCount (public_key_line (generate 2048) ++ "\n") = 1
  ∧ (applyEvents h0 (setup_tunnel tempdir generate con_job1 con_job2 lpf)).job1.files
        "~/create_ssh_tunnel.sh"
      = tunnel_script_content con_job2 "tunnel_maker_private_key.pem" lpf ++ "\n"
  ∧ (applyEvents h0 (setup_tunnel tempdir generate con_job1 con_job2 lpf)).job1.modes
        "~/create_ssh_tunnel.sh" = some "775" := by
  refine ⟨?_, ?_, ?_, ?_, ?_⟩ <;>
    simp [setup_tunnel, create_temp_ssh_keypair, applyEvents, applyEvent,
      updateHost, script_path_eq, public_key_line, hscript, empty_string_append,
      newlineCount_append, newlineCount_eq_zero hname, newlineCount_eq_zero hb64,
      newlineCount_newline, newlineCount_space]

/-- Witness for claim C3 on concrete hosts, connections and key. -/
theorem claim_C3_witness :
    (applyEvents hosts0 (setup_tunnel "/tmp/t0" gen0 con1 con2
        "47827:localhost:47827")).job1.uploaded
      = hosts0.job1.uploaded ++
          [("tunnel_maker_private_key.pem", (gen0 2048).privateFileContent)]
  ∧ (applyEvents hosts0 (setup_tunnel "/tmp/t0" gen0 con1 con2
        "47827:localhost:47827")).job1.modes "~/create_ssh_tunnel.sh" = some "775" :=
  ⟨(claim_C3 "/tmp/t0" gen0 con1 con2 "47827:localhost:47827" hosts0 rfl
      (by decide) (by decide)).1,
   (claim_C3 "/tmp/t0" gen0 con1 con2 "47827:localhost:47827" hosts0 rfl
      (by decide) (by decide)).2.2.2.2⟩

/-- Claim C4: during a run of setup_tunnel the only event directed
at the job 2 connection is the single command appending the public
key line to authorized_keys, and the only file upload of the run
carries the private key material to the job 1 connection. -/
theorem claim_C4 (tempdir : String) (generate : Nat → RSAKey)
    (con_job1 con_job2 : Connection) (lpf : String) :
    (setup_tunnel tempdir generate con_job1 con_job2 lpf).filter (sentTo .job2)
      = [Event.echoAppend .job2 (public_key_line (generate 2048))
           "~/.ssh/authorized_keys"]
  ∧ putEvents (setup_tunnel tempdir generate con_job1 con_job2 lpf)
      = [(Endpoint.job1, "tunnel_maker_private_key.pem",
          (generate 2048).privateFileContent)] := by
  constructor <;>
    simp [setup_tunnel, create_temp_ssh_keypair, List.filter, sentTo,
      sameEndpoint, putEvents, public_key_line]

/-- Claim C8: create_temp_ssh_keypair with the default size 2048
generates a key of 2048 bits, writes the private key serialization
to tempdir/tunnel_maker_private_key.pem, writes the public key as
the single line of algorithm name and base64 data to
tempdir/tunnel_maker_public_key.pub, and returns the in-memory key
together with both paths. -/
theorem claim_C8 (tempdir : String) (generate : Nat → RSAKey)
    (hbits : ∀ b, (generate b).bits = b) :
    (create_temp_ssh_keypair tempdir generate 2048).key.bits = 2048
  ∧ (create_temp_ssh_keypair tempdir generate 2048).key = generate 2048
  ∧ (create_temp_ssh_keypair tempdir generate 2048).writes
      = [(⟨tempdir, "tunnel_maker_private_key.pem"⟩,
          (generate 2048).privateFileContent),
         (⟨tempdir, "tunnel_maker_public_key.pub"⟩,
          public_key_line (generate 2048))]
  ∧ (create_temp_ssh_keypair tempdir generate 2048).private_key_path
      = ⟨tempdir, "tunnel_maker_private_key.pem"⟩
  ∧ (create_temp_ssh_keypair tempdir generate 2048).public_key_path
      = ⟨tempdir, "tunnel_maker_public_key.pub"⟩ := by
  refine ⟨?_, ?_, ?_, ?_, ?_⟩ <;> simp [create_temp_ssh_keypair, hbits]

/-- Witness for claim C8 with a concrete generator and directory. -/
theorem claim_C8_witness :
    (create_temp_ssh_keypair "/tmp/t0" gen0 2048).key.bits = 2048
  ∧ (create_temp_ssh_keypair "/tmp/t0" gen0 2048).writes
      = [(⟨"/tmp/t0", "tunnel_maker_private_key.pem"⟩, "PEMCONTENT"),
         (⟨"/tmp/t0", "tunnel_maker_public_key.pub"⟩, "ssh-rsa AAAAB3Nza")] :=
  ⟨(claim_C8 "/tmp/t0" gen0 fun _ => rfl).1,
   (claim_C8 "/tmp/t0" gen0 fun _ => rfl).2.2.1⟩

/-- Claim C9: two consecutive runs of setup_tunnel against the same
pair of hosts append two lines to authorized_keys on job 2 (without
deduplication) and append the rendered script content twice, hence
two ssh invocation lines, to create_ssh_tunnel.sh on job 1, instead
of overwriting or deduplicating. -/
theorem claim_C9 (tempdir : String) (g1 g2 : Nat → RSAKey)
    (con_job1 con_job2 : Connection) (lpf : String) (h0 : Hosts)
    (hn1 : ¬ Char.ofNat 10 ∈ (g1 2048).keyName.data)
    (hb1 : ¬ Char.ofNat 10 ∈ (g1 2048).base64.data)
    (hn2 : ¬ Char.ofNat 10 ∈ (g2 2048).keyName.data)
    (hb2 : ¬ Char.ofNat 10 ∈ (g2 2048).base64.data) :
    (applyEvents (applyEvents h0 (setup_tunnel tempdir g1 con_job1 con_job2 lpf))
        (setup_tunnel tempdir g2 con_job1 con_job2 lpf)).job2.files
        "~/.ssh/authorized_keys"
      = h0.job2.files "~/.ssh/authorized_keys"
          ++ public_key_line (g1 2048) ++ "\n"
          ++ public_key_line (g2 2048) ++ "\n"
  ∧ newlineCount (public_key_line (g1 2048) ++ "\n"
          ++ public_key_line (g2 2048) ++ "\n") = 2
  ∧ (applyEvents (applyEvents h0 (setup_tunnel tempdir g1 con_job1 con_job2 lpf))
        (setup_tunnel tempdir g2 con_job1 con_job2 lpf)).job1.files
        "~/create_ssh_tunnel.sh"
      = h0.job1.files "~/create_ssh_tunnel.sh"
          ++ tunnel_script_content con_job2 "tunnel_maker_private_key.pem" lpf ++ "\n"
          ++ tunnel_script_content con_job2 "tunnel_maker_private_key.pem" lpf ++ "\n" := by
  refine ⟨?_, ?_, ?_⟩ <;>
    simp [setup_tunnel, create_temp_ssh_keypair, applyEvents, applyEvent,
      updateHost, script_path_eq, public_key_line,
      newlineCount_append, newlineCount_eq_zero hn1, newlineCount_eq_zero hb1,
      newlineCount_eq_zero hn2, newlineCount_eq_zero hb2,
      newlineCount_newline, newlineCount_space, String.append_assoc]

/-- Witness for claim C9: the same generator twice produces two
identical appended lines. -/
theorem claim_C9_witness :
    (applyEvents (applyEvents hosts0 (setup_tunnel "/tmp/t0" gen0 con1 con2
        "47827:localhost:47827"))
        (setup_tunnel "/tmp/t0" gen0 con1 con2 "47827:localhost:47827")).job2.files
        "~/.ssh/authorized_keys"
      = hosts0.job2.files "~/.ssh/authorized_keys"
          ++ public_key_line (gen0 2048) ++ "\n"
          ++ public_key_line (gen0 2048) ++ "\n" :=
  (claim_C9 "/tmp/t0" gen0 gen0 con1 con2 "47827:localhost:47827" hosts0
    (by decide) (by decide) (by decide) (by decide)).1

/-- Claim C10: the line appended to authorized_keys on job 2 is
character for character the content written to the public key file:
both are the public key line of the generated key, built from the
in-memory key, and the file content carries no trailing newline. -/
theorem claim_C10 (tempdir : String) (generate : Nat → RSAKey)
    (con_job1 con_job2 : Connection) (lpf : String) :
    (create_temp_ssh_keypair tempdir generate 2048).writes
      = [((create_temp_ssh_keypair tempdir generate 2048).private_key_path,
          (generate 2048).privateFileContent),
         ((create_temp_ssh_keypair tempdir generate 2048).public_key_path,
          public_key_line (generate 2048))]
  ∧ appendsTo .job2 "~/.ssh/authorized_keys"
        (setup_tunnel tempdir generate con_job1 con_job2 lpf)
      = [public_key_line (generate 2048)] := by
  constructor <;>
    simp [create_temp_ssh_keypair, setup_tunnel, appendsTo, public_key_line]

/-- Counterexample to claim C5 as stated: with RESCALE_API_US_PROD
set to the empty string and RESCALE_API_KEY set to "realkey", the
code uses the empty value of the first variable that is set, not the
first non-empty value claimed by the specification. -/
theorem claim_C5_counterexample :
    (get_api_key_from_envvar env5 args0).1 = some ""
  ∧ first_nonempty_envvar env5 envvar_priority = some "realkey"
  ∧ (get_api_key_from_envvar env5 args0).1
      ≠ first_nonempty_envvar env5 envvar_priority :=
  ⟨rfl, rfl, by decide⟩

/-- Claim C5 (amended): credential resolution checks
RESCALE_API_US_PROD and then RESCALE_API_KEY in that fixed priority
order and uses the value of the first variable that is set in the
environment, even if that value is empty, as the API key together
with the CLI-provided base URL, bypassing the config file entirely;
only when neither variable is set is the profile file consulted with
the named profile. -/
theorem claim_C5 (environ : String → Option String) (a : CLArgs)
    (config_file : Option ConfigSections) :
    (∀ k, environ "RESCALE_API_US_PROD" = some k →
       get_api_profile environ a config_file = .ok k a.api_base_url)
  ∧ (∀ k, environ "RESCALE_API_US_PROD" = none →
       environ "RESCALE_API_KEY" = some k →
       get_api_profile environ a config_file = .ok k a.api_base_url)
  ∧ (environ "RESCALE_API_US_PROD" = none →
       environ "RESCALE_API_KEY" = none →
       get_api_profile environ a config_file
         = get_api_key_from_config_file config_file a.api_config_file a.api_profile) := by
  refine ⟨?_, ?_, ?_⟩
  · intro k h1
    simp [get_api_profile, get_api_key_from_envvar, first_set_envvar,
      envvar_priority, h1]
  · intro k h1 h2
    simp [get_api_profile, get_api_key_from_envvar, first_set_envvar,
      envvar_priority, h1, h2]
  · intro h1 h2
    simp [get_api_profile, get_api_key_from_envvar, first_set_envvar,
      envvar_priority, h1, h2]

/-- Witness for claim C5: the first variable wins even with the
second variable and a config file present; the second variable is
used when the first is unset; the config file is consulted when
neither is set. -/
theorem claim_C5_witness :
    get_api_profile envA args0 (some cfg0) = .ok "kUS" "https://platform.rescale.com"
  ∧ get_api_profile envB args0 none = .ok "kGen" "https://platform.rescale.com"
  ∧ get_api_profile envC args0 (some cfg0)
      = get_api_key_from_config_file (some cfg0) args0.api_config_file args0.api_profile :=
  ⟨(claim_C5 envA args0 (some cfg0)).1 "kUS" rfl,
   (claim_C5 envB args0 none).2.1 "kGen" rfl rfl,
   (claim_C5 envC args0 (some cfg0)).2.2 rfl rfl⟩

/-- Claim C6: a missing config file raises a file-not-found error;
a profile section lacking either required key logs an error and
terminates the process with exit code 1; and in a full run that
reaches the config file and hits a missing key, the process
terminates with no API call attempted afterwards. -/
theorem claim_C6 :
    (∀ path profile : String,
       get_api_key_from_config_file none path profile
         = .fileNotFound ("File " ++ path ++ " not found!"))
  ∧ (∀ (sections : ConfigSections) (path profile : String)
       (sect : List (String × String)),
       sections.lookup profile = some sect →
       (sect.lookup "apikey" = none ∨ sect.lookup "apibaseurl" = none) →
       get_api_key_from_config_file (some sections) path profile
         = .exited ("Keys \x27apikey\x27 and \x27apibaseurl\x27 must be defined for profile \x27"
             ++ profile ++ "\x27 in file " ++ path ++ ".") 1)
  ∧ (∀ (w : World) (a : CLArgs) (sections : ConfigSections)
       (sect : List (String × String)),
       get_api_key_from_envvar w.environ a = (none, a.api_base_url) →
       w.config_file = some sections →
       sections.lookup a.api_profile = some sect →
       (sect.lookup "apikey" = none ∨ sect.lookup "apibaseurl" = none) →
       main_run w a
         = ([Event.logError ("Keys \x27apikey\x27 and \x27apibaseurl\x27 must be defined for profile \x27"
             ++ a.api_profile ++ "\x27 in file " ++ a.api_config_file ++ ".")],
            .error (.exited 1))
       ∧ ∀ url, Event.apiGet url ∉ (main_run w a).1) := by
  have part2 : ∀ (sections : ConfigSections) (path profile : String)
       (sect : List (String × String)),
       sections.lookup profile = some sect →
       (sect.lookup "apikey" = none ∨ sect.lookup "apibaseurl" = none) →
       get_api_key_from_config_file (some sections) path profile
         = .exited ("Keys \x27apikey\x27 and \x27apibaseurl\x27 must be defined for profile \x27"
             ++ profile ++ "\x27 in file " ++ path ++ ".") 1 := by
    intro sections path profile sect hsect hmiss
    rcases hmiss with hm | hm
    · simp [get_api_key_from_config_file, hsect, hm]
    · cases hk : sect.lookup "apikey" with
      | none => simp [get_api_key_from_config_file, hsect, hk]
      | some k => simp [get_api_key_from_config_file, hsect, hk, hm]
  refine ⟨fun path profile => rfl, part2, ?_⟩
  intro w a sections sect henv hcfg hsect hmiss
  have hprof : get_api_profile w.environ a w.config_file
      = .exited ("Keys \x27apikey\x27 and \x27apibaseurl\x27 must be defined for profile \x27"
          ++ a.api_profile ++ "\x27 in file " ++ a.api_config_file ++ ".") 1 := by
    unfold get_api_profile
    rw [henv, hcfg]
    exact part2 sections a.api_config_file a.api_profile sect hsect hmiss
  have hmain : main_run w a
      = ([Event.logError ("Keys \x27apikey\x27 and \x27apibaseurl\x27 must be defined for profile \x27"
          ++ a.api_profile ++ "\x27 in file " ++ a.api_config_file ++ ".")],
         .error (.exited 1)) := by
    simp only [main_run, hprof]
  refine ⟨hmain, ?_⟩
  intro url hmem
  rw [hmain] at hmem
  simp at hmem

/-- Witness for claim C6: a missing file, and a full run against a
config file whose default profile misses the apibaseurl key. -/
theorem claim_C6_witness :
    get_api_key_from_config_file none "/path/cfg" "default"
      = .fileNotFound "File /path/cfg not found!"
  ∧ main_run w_cfg args0
      = ([Event.logError "Keys \x27apikey\x27 and \x27apibaseurl\x27 must be defined for profile \x27default\x27 in file /home/u/.config/rescale/apiconfig."],
         .error (.exited 1)) :=
  ⟨claim_C6.1 "/path/cfg" "default",
   (claim_C6.2.2 w_cfg args0 cfgBad [("apikey", "ck")] rfl rfl rfl (Or.inr rfl)).1⟩

/-- Claim C7: the connectivity test runs a trivial remote echo
command and treats a non-success result as fatal, logging the target
host and exiting with code 1; in a full run a failing test on either
endpoint makes the process exit with code 1 before any provisioning
effect is performed, and the test is run for both endpoints. -/
theorem claim_C7 :
    (∀ (e : Endpoint) (c : Connection),
       test_ssh_connection e c true
         = ([Event.runEcho e "SSH connection successful"], .ok ())
     ∧ test_ssh_connection e c false
         = ([Event.runEcho e "SSH connection successful",
             Event.logError ("Could not connect to " ++ c.host ++ ".")], .error 1))
  ∧ (∀ (w : World) (a : CLArgs) (k burl : String) (t1 : List Event)
       (i1 : Instance) (t2 : List Event) (i2 : Instance),
       get_api_profile w.environ a w.config_file = .ok k burl →
       run_get_head_node w burl a.job1 = (t1, .ok (some i1)) →
       run_get_head_node w burl a.job2 = (t2, .ok (some i2)) →
       w.ssh_ok1 = false →
       (main_run w a).2 = .error (.exited 1)
       ∧ Event.runEcho .job1 "SSH connection successful" ∈ (main_run w a).1
       ∧ Event.logError ("Could not connect to " ++ i1.publicIp ++ ".") ∈ (main_run w a).1
       ∧ ∀ ev ∈ (main_run w a).1, isTunnelEvent ev = false)
  ∧ (∀ (w : World) (a : CLArgs) (k burl : String) (t1 : List Event)
       (i1 : Instance) (t2 : List Event) (i2 : Instance),
       get_api_profile w.environ a w.config_file = .ok k burl →
       run_get_head_node w burl a.job1 = (t1, .ok (some i1)) →
       run_get_head_node w burl a.job2 = (t2, .ok (some i2)) →
       w.ssh_ok1 = true →
       w.ssh_ok2 = false →
       (main_run w a).2 = .error (.exited 1)
       ∧ Event.runEcho .job1 "SSH connection successful" ∈ (main_run w a).1
       ∧ Event.runEcho .job2 "SSH connection successful" ∈ (main_run w a).1
       ∧ Event.logError ("Could not connect to " ++ i2.publicIp ++ ".") ∈ (main_run w a).1
       ∧ ∀ ev ∈ (main_run w a).1, isTunnelEvent ev = false) := by
  refine ⟨fun e c => ⟨rfl, rfl⟩, ?_, ?_⟩
  · intro w a k burl t1 i1 t2 i2 hprof h1 h2 hssh
    have hmain : main_run w a
        = (t1 ++ (t2 ++
            [Event.connect i1.publicIp i1.username i1.sshPort,
             Event.connect i2.publicIp i2.username i2.sshPort]) ++
            [Event.runEcho .job1 "SSH connection successful",
             Event.logError ("Could not connect to " ++ i1.publicIp ++ ".")],
           .error (.exited 1)) := by
      simp [main_run, hprof, h1, h2, hssh, test_ssh_connection,
        connect_to_instance]
    refine ⟨by rw [hmain], by rw [hmain]; simp, by rw [hmain]; simp, ?_⟩
    intro ev hmem
    rw [hmain] at hmem
    simp at hmem
    rcases hmem with hmem | hmem | hmem | hmem | hmem | hmem
    · exact (apiEvent_benign (apiEvent_run_get_head_node w burl a.job1 ev
        (by rw [h1]; exact hmem))).2
    · exact (apiEvent_benign (apiEvent_run_get_head_node w burl a.job2 ev
        (by rw [h2]; exact hmem))).2
    · simp [hmem, isTunnelEvent]
    · simp [hmem, isTunnelEvent]
    · simp [hmem, isTunnelEvent]
    · simp [hmem, isTunnelEvent]
  · intro w a k burl t1 i1 t2 i2 hprof h1 h2 hssh1 hssh2
    have hmain : main_run w a
        = (t1 ++ (t2 ++
            [Event.connect i1.publicIp i1.username i1.sshPort,
             Event.connect i2.publicIp i2.username i2.sshPort]) ++
            ([Event.runEcho .job1 "SSH connection successful"] ++
             [Event.runEcho .job2 "SSH connection successful",
              Event.logError ("Could not connect to " ++ i2.publicIp ++ ".")]),
           .error (.exited 1)) := by
      simp [main_run, hprof, h1, h2, hssh1, hssh2, test_ssh_connection,
        connect_to_instance]
    refine ⟨by rw [hmain], by rw [hmain]; simp, by rw [hmain]; simp,
      by rw [hmain]; simp, ?_⟩
    intro ev hmem
    rw [hmain] at hmem
    simp at hmem
    rcases hmem with hmem | hmem | hmem | hmem | hmem | hmem | hmem
    · exact (apiEvent_benign (apiEvent_run_get_head_node w burl a.job1 ev
        (by rw [h1]; exact hmem))).2
    · exact (apiEvent_benign (apiEvent_run_get_head_node w burl a.job2 ev
        (by rw [h2]; exact hmem))).2
    · simp [hmem, isTunnelEvent]
    · simp [hmem, isTunnelEvent]
    · simp [hmem, isTunnelEvent]
    · simp [hmem, isTunnelEvent]
    · simp [hmem, isTunnelEvent]

/-- Witness for claim C7: full runs in which the first, respectively
second, connectivity test fails. -/
theorem claim_C7_witness :
    ((main_run w_sshfail args0).2 = .error (.exited 1)
      ∧ Event.runEcho .job1 "SSH connection successful" ∈ (main_run w_sshfail args0).1)
  ∧ ((main_run w_sshfail2 args0).2 = .error (.exited 1)
      ∧ Event.runEcho .job2 "SSH connection successful" ∈ (main_run w_sshfail2 args0).1) :=
  ⟨⟨(claim_C7.2.1 w_sshfail args0 "KEY0" "https://platform.rescale.com"
       [Event.apiGet (instances_url "https://platform.rescale.com" "jA")] inst_a
       [Event.apiGet (instances_url "https://platform.rescale.com" "jB")] inst_a
       rfl rfl rfl rfl).1,
    (claim_C7.2.1 w_sshfail args0 "KEY0" "https://platform.rescale.com"
       [Event.apiGet (instances_url "https://platform.rescale.com" "jA")] inst_a
       [Event.apiGet (instances_url "https://platform.rescale.com" "jB")] inst_a
       rfl rfl rfl rfl).2.1⟩,
   ⟨(claim_C7.2.2 w_sshfail2 args0 "KEY0" "https://platform.rescale.com"
       [Event.apiGet (instances_url "https://platform.rescale.com" "jA")] inst_a
       [Event.apiGet (instances_url "https://platform.rescale.com" "jB")] inst_a
       rfl rfl rfl rfl rfl).1,
    (claim_C7.2.2 w_sshfail2 args0 "KEY0" "https://platform.rescale.com"
       [Event.apiGet (instances_url "https://platform.rescale.com" "jA")] inst_a
       [Event.apiGet (instances_url "https://platform.rescale.com" "jB")] inst_a
       rfl rfl rfl rfl rfl).2.2.1⟩⟩

end TunnelMaker
